import Mathlib

/-!
Verification of the rq-tower event-dispatch core (src/src/service/builder.rs and
src/src/service/mod.rs): a shallow embedding of the handler registry, the
`call_event!` dispatch loop, the `on_event!` registration methods, the bounded
admission buffer built by `build()`, and the `i64` delay/increment fixture,
together with theorems about dispatch order, fault containment, registration
framing, queue bounds and interface infallibility.
-/

/-- Rust's `std::convert::Infallible`: an uninhabited error type. -/
abbrev Infallible := Empty

instance : DecidableEq Infallible := fun a _ => a.elim

/-- Behaviour of one user-registered async handler body on a given payload: it
either runs to completion (returning `()`) or terminates abnormally (panics). -/
inductive UserRun where
  | completes
  | panics
  deriving DecidableEq

instance {ε α : Type} [DecidableEq ε] [DecidableEq α] : DecidableEq (Except ε α) :=
  fun x y =>
    match x, y with
    | .ok a, .ok b =>
      if h : a = b then isTrue (h ▸ rfl)
      else isFalse (by intro hc; injection hc; exact h ‹_›)
    | .ok _, .error _ => isFalse (by intro hc; cases hc)
    | .error _, .ok _ => isFalse (by intro hc; cases hc)
    | .error a, .error b =>
      if h : a = b then isTrue (h ▸ rfl)
      else isFalse (by intro hc; injection hc; exact h ‹_›)

/-- Outcome of awaiting one boxed handler service: it either returns a
`Result<(), ε>` or panics, unwinding the awaiting future. -/
inductive HandlerStep (ε : Type) where
  | ret (r : Except ε Unit)
  | panic
  deriving DecidableEq

/-- One registered boxed handler service (`BoxCloneService<α, (), ε>`): `hid` is
an instrumentation identifier (source handlers are anonymous boxed closures) and
`run` gives the behaviour of one invocation on a payload. -/
structure Handler (α ε : Type) where
  hid : Nat
  run : α → HandlerStep ε

/-- Embeds the `service_fn` wrapper of the `on_event!` macro (builder.rs lines
99-104): run the user future `f`, then return `Ok(())`; a panic in `f` unwinds
through the wrapper. -/
def wrapHandler {α : Type} (n : Nat) (f : α → UserRun) : Handler α Infallible :=
  ⟨n, fun p =>
    match f p with
    | .completes => .ret (.ok ())
    | .panics => .panic⟩

/-- Embeds the fan-out loop of `call_event!` (builder.rs lines 49-51):
`for h in handlers.iter_mut() { h.call(e.clone()).await.ok(); }`. Each handler
that returns has its result discarded by `.ok()` and the loop continues; a
panicking handler unwinds the whole dispatch future (second component `false`),
skipping the remaining handlers. The first component records, in order, each
invocation performed: the handler's id and the payload clone it received. -/
def runHandlers {α ε : Type} (p : α) : List (Handler α ε) → List (Nat × α) × Bool
  | [] => ([], true)
  | h :: t =>
    match h.run p with
    | .ret _ =>
      let r := runHandlers p t
      ((h.hid, p) :: r.1, r.2)
    | .panic => ([(h.hid, p)], false)

/-- Modelled from the spec: opaque payload of the `GroupMessage` variant; the concrete
fields live in the external protocol layer (rs_qq), outside this repository. -/
structure GroupMessageEvent where
  data : Nat
  deriving DecidableEq

/-- Modelled from the spec: opaque payload of the `PrivateMessage` variant; the concrete
fields live in the external protocol layer (rs_qq), outside this repository. -/
structure PrivateMessageEvent where
  data : Nat
  deriving DecidableEq

/-- Modelled from the spec: opaque payload of the `GroupRequest` variant; the concrete
fields live in the external protocol layer (rs_qq), outside this repository. -/
structure GroupRequestEvent where
  data : Nat
  deriving DecidableEq

/-- Modelled from the spec: opaque payload of the `SelfInvited` variant; the concrete
fields live in the external protocol layer (rs_qq), outside this repository. -/
structure SelfInvitedEvent where
  data : Nat
  deriving DecidableEq

/-- Modelled from the spec: opaque payload of the `FriendRequest` variant; the concrete
fields live in the external protocol layer (rs_qq), outside this repository. -/
structure FriendRequestEvent where
  data : Nat
  deriving DecidableEq

/-- Modelled from the spec: opaque payload of the `NewMember` variant; the concrete
fields live in the external protocol layer (rs_qq), outside this repository. -/
structure NewMemberEvent where
  data : Nat
  deriving DecidableEq

/-- Modelled from the spec: opaque payload of the `GroupMute` variant; the concrete
fields live in the external protocol layer (rs_qq), outside this repository. -/
structure GroupMuteEvent where
  data : Nat
  deriving DecidableEq

/-- Modelled from the spec: opaque payload of the `FriendMessageRecall` variant; the concrete
fields live in the external protocol layer (rs_qq), outside this repository. -/
structure FriendMessageRecallEvent where
  data : Nat
  deriving DecidableEq

/-- Modelled from the spec: opaque payload of the `GroupMessageRecall` variant; the concrete
fields live in the external protocol layer (rs_qq), outside this repository. -/
structure GroupMessageRecallEvent where
  data : Nat
  deriving DecidableEq

/-- Modelled from the spec: opaque payload of the `NewFriend` variant; the concrete
fields live in the external protocol layer (rs_qq), outside this repository. -/
structure NewFriendEvent where
  data : Nat
  deriving DecidableEq

/-- Modelled from the spec: opaque payload of the `GroupLeave` variant; the concrete
fields live in the external protocol layer (rs_qq), outside this repository. -/
structure GroupLeaveEvent where
  data : Nat
  deriving DecidableEq

/-- Modelled from the spec: opaque payload of the `FriendPoke` variant; the concrete
fields live in the external protocol layer (rs_qq), outside this repository. -/
structure FriendPokeEvent where
  data : Nat
  deriving DecidableEq

/-- Modelled from the spec: opaque payload of the `GroupNameUpdate` variant; the concrete
fields live in the external protocol layer (rs_qq), outside this repository. -/
structure GroupNameUpdateEvent where
  data : Nat
  deriving DecidableEq

/-- Modelled from the spec: opaque payload of the `DeleteFriend` variant; the concrete
fields live in the external protocol layer (rs_qq), outside this repository. -/
structure DeleteFriendEvent where
  data : Nat
  deriving DecidableEq

/-- Modelled from the spec: opaque payload of the `MemberPermissionChange` variant; the concrete
fields live in the external protocol layer (rs_qq), outside this repository. -/
structure MemberPermissionChangeEvent where
  data : Nat
  deriving DecidableEq

/-- Modelled from the spec: the envelope sum type `QEvent` (declared in
`crate::rq::handler`, not under src/); variants are those matched by the
`call_event!` macro, plus an `Unknown` catch-all for the macro's `_` arm. -/
inductive QEvent where
  | LoginEvent (p : Int)
  | GroupMessage (p : GroupMessageEvent)
  | PrivateMessage (p : PrivateMessageEvent)
  | GroupRequest (p : GroupRequestEvent)
  | SelfInvited (p : SelfInvitedEvent)
  | FriendRequest (p : FriendRequestEvent)
  | NewMember (p : NewMemberEvent)
  | GroupMute (p : GroupMuteEvent)
  | FriendMessageRecall (p : FriendMessageRecallEvent)
  | GroupMessageRecall (p : GroupMessageRecallEvent)
  | NewFriend (p : NewFriendEvent)
  | GroupLeave (p : GroupLeaveEvent)
  | FriendPoke (p : FriendPokeEvent)
  | GroupNameUpdate (p : GroupNameUpdateEvent)
  | DeleteFriend (p : DeleteFriendEvent)
  | MemberPermissionChange (p : MemberPermissionChangeEvent)
  | Unknown
  deriving DecidableEq


/-- One recorded handler invocation: the handler's id and the argument it was
given, re-wrapped in its variant for uniformity. -/
structure Invocation where
  hid : Nat
  arg : QEvent
  deriving DecidableEq

/-- Result of one dispatch future: the ordered invocation trace and whether the
future ran to completion (`false` = it was unwound by a handler panic). -/
structure DispatchResult where
  trace : List Invocation
  completed : Bool
  deriving DecidableEq

/-- Value the dispatch future resolves to, when it resolves at all: the source
returns `Ok(())` at the end of the async block (builder.rs line 52). -/
def DispatchResult.outcome (r : DispatchResult) : Option (Except Infallible Unit) :=
  if r.completed then some (Except.ok ()) else none

/-- Rust's `std::task::Poll`. -/
inductive Poll (α : Type) where
  | ready (a : α)
  | pending

/-- Embeds `RQServiceBuilder` (src/src/service/builder.rs lines 20-39): one
ordered handler list per event variant, each of tower type
`BoxCloneService<Payload, (), Infallible>`. -/
structure RQServiceBuilder where
  login_handlers : List (Handler Int Infallible)
  group_message_handlers : List (Handler GroupMessageEvent Infallible)
  private_message_handlers : List (Handler PrivateMessageEvent Infallible)
  group_request_handlers : List (Handler GroupRequestEvent Infallible)
  self_invited_handlers : List (Handler SelfInvitedEvent Infallible)
  friend_request_handlers : List (Handler FriendRequestEvent Infallible)
  new_member_handlers : List (Handler NewMemberEvent Infallible)
  group_mute_handlers : List (Handler GroupMuteEvent Infallible)
  friend_message_recall_handlers : List (Handler FriendMessageRecallEvent Infallible)
  group_message_recall_handlers : List (Handler GroupMessageRecallEvent Infallible)
  new_friend_handlers : List (Handler NewFriendEvent Infallible)
  group_leave_handlers : List (Handler GroupLeaveEvent Infallible)
  friend_poke_handlers : List (Handler FriendPokeEvent Infallible)
  group_name_update_handlers : List (Handler GroupNameUpdateEvent Infallible)
  delete_friend_handlers : List (Handler DeleteFriendEvent Infallible)
  member_permission_change_handlers : List (Handler MemberPermissionChangeEvent Infallible)

/-- Embeds `RQServiceBuilder::new` = `Self::default()`: every handler list empty. -/
def RQServiceBuilder.new : RQServiceBuilder :=
  ⟨[], [], [], [], [], [], [], [], [], [], [], [], [], [], [], []⟩

/-- Embeds the `call_event!` macro expansion (builder.rs lines 41-60, 72-89):
match on the event variant, clone that variant's handler list, then await each
handler in order on a clone of the payload, discarding its result with `.ok()`,
and finally return `Ok(())`; unmatched variants return `Ok(())` at once. The
first component returns the (unmutated) builder, translating `&mut self`; the
`DispatchResult` records the invocation trace and whether the future ran to
completion (`false` = a handler panicked and unwound the dispatch). -/
def RQServiceBuilder.call (b : RQServiceBuilder) (e : QEvent) :
    RQServiceBuilder × DispatchResult :=
  match e with
  | .LoginEvent p =>
      let r := runHandlers p b.login_handlers
      (b, ⟨r.1.map (fun x => ⟨x.1, QEvent.LoginEvent x.2⟩), r.2⟩)
  | .GroupMessage p =>
      let r := runHandlers p b.group_message_handlers
      (b, ⟨r.1.map (fun x => ⟨x.1, QEvent.GroupMessage x.2⟩), r.2⟩)
  | .PrivateMessage p =>
      let r := runHandlers p b.private_message_handlers
      (b, ⟨r.1.map (fun x => ⟨x.1, QEvent.PrivateMessage x.2⟩), r.2⟩)
  | .GroupRequest p =>
      let r := runHandlers p b.group_request_handlers
      (b, ⟨r.1.map (fun x => ⟨x.1, QEvent.GroupRequest x.2⟩), r.2⟩)
  | .SelfInvited p =>
      let r := runHandlers p b.self_invited_handlers
      (b, ⟨r.1.map (fun x => ⟨x.1, QEvent.SelfInvited x.2⟩), r.2⟩)
  | .FriendRequest p =>
      let r := runHandlers p b.friend_request_handlers
      (b, ⟨r.1.map (fun x => ⟨x.1, QEvent.FriendRequest x.2⟩), r.2⟩)
  | .NewMember p =>
      let r := runHandlers p b.new_member_handlers
      (b, ⟨r.1.map (fun x => ⟨x.1, QEvent.NewMember x.2⟩), r.2⟩)
  | .GroupMute p =>
      let r := runHandlers p b.group_mute_handlers
      (b, ⟨r.1.map (fun x => ⟨x.1, QEvent.GroupMute x.2⟩), r.2⟩)
  | .FriendMessageRecall p =>
      let r := runHandlers p b.friend_message_recall_handlers
      (b, ⟨r.1.map (fun x => ⟨x.1, QEvent.FriendMessageRecall x.2⟩), r.2⟩)
  | .GroupMessageRecall p =>
      let r := runHandlers p b.group_message_recall_handlers
      (b, ⟨r.1.map (fun x => ⟨x.1, QEvent.GroupMessageRecall x.2⟩), r.2⟩)
  | .NewFriend p =>
      let r := runHandlers p b.new_friend_handlers
      (b, ⟨r.1.map (fun x => ⟨x.1, QEvent.NewFriend x.2⟩), r.2⟩)
  | .GroupLeave p =>
      let r := runHandlers p b.group_leave_handlers
      (b, ⟨r.1.map (fun x => ⟨x.1, QEvent.GroupLeave x.2⟩), r.2⟩)
  | .FriendPoke p =>
      let r := runHandlers p b.friend_poke_handlers
      (b, ⟨r.1.map (fun x => ⟨x.1, QEvent.FriendPoke x.2⟩), r.2⟩)
  | .GroupNameUpdate p =>
      let r := runHandlers p b.group_name_update_handlers
      (b, ⟨r.1.map (fun x => ⟨x.1, QEvent.GroupNameUpdate x.2⟩), r.2⟩)
  | .DeleteFriend p =>
      let r := runHandlers p b.delete_friend_handlers
      (b, ⟨r.1.map (fun x => ⟨x.1, QEvent.DeleteFriend x.2⟩), r.2⟩)
  | .MemberPermissionChange p =>
      let r := runHandlers p b.member_permission_change_handlers
      (b, ⟨r.1.map (fun x => ⟨x.1, QEvent.MemberPermissionChange x.2⟩), r.2⟩)
  | .Unknown => (b, ⟨[], true⟩)

/-- Embeds `on_event!(on_login, login_handlers, ..)` (builder.rs lines 92-109): wraps the
user future `f` in a `service_fn` that always returns `Ok(())` and pushes it at
the end of `login_handlers`; total, so registration cannot fail. -/
def RQServiceBuilder.on_login (b : RQServiceBuilder) (n : Nat)
    (f : Int → UserRun) : RQServiceBuilder :=
  { b with login_handlers := b.login_handlers ++ [wrapHandler n f] }

/-- Embeds `on_event!(on_group_message, group_message_handlers, ..)` (builder.rs lines 92-109): wraps the
user future `f` in a `service_fn` that always returns `Ok(())` and pushes it at
the end of `group_message_handlers`; total, so registration cannot fail. -/
def RQServiceBuilder.on_group_message (b : RQServiceBuilder) (n : Nat)
    (f : GroupMessageEvent → UserRun) : RQServiceBuilder :=
  { b with group_message_handlers := b.group_message_handlers ++ [wrapHandler n f] }

/-- Embeds `on_event!(on_private_message, private_message_handlers, ..)` (builder.rs lines 92-109): wraps the
user future `f` in a `service_fn` that always returns `Ok(())` and pushes it at
the end of `private_message_handlers`; total, so registration cannot fail. -/
def RQServiceBuilder.on_private_message (b : RQServiceBuilder) (n : Nat)
    (f : PrivateMessageEvent → UserRun) : RQServiceBuilder :=
  { b with private_message_handlers := b.private_message_handlers ++ [wrapHandler n f] }

/-- Embeds `on_event!(on_group_request, group_request_handlers, ..)` (builder.rs lines 92-109): wraps the
user future `f` in a `service_fn` that always returns `Ok(())` and pushes it at
the end of `group_request_handlers`; total, so registration cannot fail. -/
def RQServiceBuilder.on_group_request (b : RQServiceBuilder) (n : Nat)
    (f : GroupRequestEvent → UserRun) : RQServiceBuilder :=
  { b with group_request_handlers := b.group_request_handlers ++ [wrapHandler n f] }

/-- Embeds `on_event!(on_self_invited, self_invited_handlers, ..)` (builder.rs lines 92-109): wraps the
user future `f` in a `service_fn` that always returns `Ok(())` and pushes it at
the end of `self_invited_handlers`; total, so registration cannot fail. -/
def RQServiceBuilder.on_self_invited (b : RQServiceBuilder) (n : Nat)
    (f : SelfInvitedEvent → UserRun) : RQServiceBuilder :=
  { b with self_invited_handlers := b.self_invited_handlers ++ [wrapHandler n f] }

/-- Embeds `on_event!(on_friend_request, friend_request_handlers, ..)` (builder.rs lines 92-109): wraps the
user future `f` in a `service_fn` that always returns `Ok(())` and pushes it at
the end of `friend_request_handlers`; total, so registration cannot fail. -/
def RQServiceBuilder.on_friend_request (b : RQServiceBuilder) (n : Nat)
    (f : FriendRequestEvent → UserRun) : RQServiceBuilder :=
  { b with friend_request_handlers := b.friend_request_handlers ++ [wrapHandler n f] }

/-- Embeds `on_event!(on_new_member, new_member_handlers, ..)` (builder.rs lines 92-109): wraps the
user future `f` in a `service_fn` that always returns `Ok(())` and pushes it at
the end of `new_member_handlers`; total, so registration cannot fail. -/
def RQServiceBuilder.on_new_member (b : RQServiceBuilder) (n : Nat)
    (f : NewMemberEvent → UserRun) : RQServiceBuilder :=
  { b with new_member_handlers := b.new_member_handlers ++ [wrapHandler n f] }

/-- Embeds `on_event!(on_group_mute, group_mute_handlers, ..)` (builder.rs lines 92-109): wraps the
user future `f` in a `service_fn` that always returns `Ok(())` and pushes it at
the end of `group_mute_handlers`; total, so registration cannot fail. -/
def RQServiceBuilder.on_group_mute (b : RQServiceBuilder) (n : Nat)
    (f : GroupMuteEvent → UserRun) : RQServiceBuilder :=
  { b with group_mute_handlers := b.group_mute_handlers ++ [wrapHandler n f] }

/-- Embeds `on_event!(on_friend_message_recall, friend_message_recall_handlers, ..)` (builder.rs lines 92-109): wraps the
user future `f` in a `service_fn` that always returns `Ok(())` and pushes it at
the end of `friend_message_recall_handlers`; total, so registration cannot fail. -/
def RQServiceBuilder.on_friend_message_recall (b : RQServiceBuilder) (n : Nat)
    (f : FriendMessageRecallEvent → UserRun) : RQServiceBuilder :=
  { b with friend_message_recall_handlers := b.friend_message_recall_handlers ++ [wrapHandler n f] }

/-- Embeds `on_event!(on_group_message_recall, group_message_recall_handlers, ..)` (builder.rs lines 92-109): wraps the
user future `f` in a `service_fn` that always returns `Ok(())` and pushes it at
the end of `group_message_recall_handlers`; total, so registration cannot fail. -/
def RQServiceBuilder.on_group_message_recall (b : RQServiceBuilder) (n : Nat)
    (f : GroupMessageRecallEvent → UserRun) : RQServiceBuilder :=
  { b with group_message_recall_handlers := b.group_message_recall_handlers ++ [wrapHandler n f] }

/-- Embeds `on_event!(on_new_friend, new_friend_handlers, ..)` (builder.rs lines 92-109): wraps the
user future `f` in a `service_fn` that always returns `Ok(())` and pushes it at
the end of `new_friend_handlers`; total, so registration cannot fail. -/
def RQServiceBuilder.on_new_friend (b : RQServiceBuilder) (n : Nat)
    (f : NewFriendEvent → UserRun) : RQServiceBuilder :=
  { b with new_friend_handlers := b.new_friend_handlers ++ [wrapHandler n f] }

/-- Embeds `on_event!(on_group_leave, group_leave_handlers, ..)` (builder.rs lines 92-109): wraps the
user future `f` in a `service_fn` that always returns `Ok(())` and pushes it at
the end of `group_leave_handlers`; total, so registration cannot fail. -/
def RQServiceBuilder.on_group_leave (b : RQServiceBuilder) (n : Nat)
    (f : GroupLeaveEvent → UserRun) : RQServiceBuilder :=
  { b with group_leave_handlers := b.group_leave_handlers ++ [wrapHandler n f] }

/-- Embeds `on_event!(on_friend_poke, friend_poke_handlers, ..)` (builder.rs lines 92-109): wraps the
user future `f` in a `service_fn` that always returns `Ok(())` and pushes it at
the end of `friend_poke_handlers`; total, so registration cannot fail. -/
def RQServiceBuilder.on_friend_poke (b : RQServiceBuilder) (n : Nat)
    (f : FriendPokeEvent → UserRun) : RQServiceBuilder :=
  { b with friend_poke_handlers := b.friend_poke_handlers ++ [wrapHandler n f] }

/-- Embeds `on_event!(on_group_name_update, group_name_update_handlers, ..)` (builder.rs lines 92-109): wraps the
user future `f` in a `service_fn` that always returns `Ok(())` and pushes it at
the end of `group_name_update_handlers`; total, so registration cannot fail. -/
def RQServiceBuilder.on_group_name_update (b : RQServiceBuilder) (n : Nat)
    (f : GroupNameUpdateEvent → UserRun) : RQServiceBuilder :=
  { b with group_name_update_handlers := b.group_name_update_handlers ++ [wrapHandler n f] }

/-- Embeds `on_event!(on_delete_friend, delete_friend_handlers, ..)` (builder.rs lines 92-109): wraps the
user future `f` in a `service_fn` that always returns `Ok(())` and pushes it at
the end of `delete_friend_handlers`; total, so registration cannot fail. -/
def RQServiceBuilder.on_delete_friend (b : RQServiceBuilder) (n : Nat)
    (f : DeleteFriendEvent → UserRun) : RQServiceBuilder :=
  { b with delete_friend_handlers := b.delete_friend_handlers ++ [wrapHandler n f] }

/-- Embeds `on_event!(on_member_permission_change, member_permission_change_handlers, ..)` (builder.rs lines 92-109): wraps the
user future `f` in a `service_fn` that always returns `Ok(())` and pushes it at
the end of `member_permission_change_handlers`; total, so registration cannot fail. -/
def RQServiceBuilder.on_member_permission_change (b : RQServiceBuilder) (n : Nat)
    (f : MemberPermissionChangeEvent → UserRun) : RQServiceBuilder :=
  { b with member_permission_change_handlers := b.member_permission_change_handlers ++ [wrapHandler n f] }

/-- Specification-side description (from the words of C1): every handler
registered for the event's variant, once, in registration order, each paired
with its own clone of the payload. -/
def expectedInvocations (b : RQServiceBuilder) (e : QEvent) : List Invocation :=
  match e with
  | .LoginEvent p => b.login_handlers.map (fun g => ⟨g.hid, QEvent.LoginEvent p⟩)
  | .GroupMessage p => b.group_message_handlers.map (fun g => ⟨g.hid, QEvent.GroupMessage p⟩)
  | .PrivateMessage p => b.private_message_handlers.map (fun g => ⟨g.hid, QEvent.PrivateMessage p⟩)
  | .GroupRequest p => b.group_request_handlers.map (fun g => ⟨g.hid, QEvent.GroupRequest p⟩)
  | .SelfInvited p => b.self_invited_handlers.map (fun g => ⟨g.hid, QEvent.SelfInvited p⟩)
  | .FriendRequest p => b.friend_request_handlers.map (fun g => ⟨g.hid, QEvent.FriendRequest p⟩)
  | .NewMember p => b.new_member_handlers.map (fun g => ⟨g.hid, QEvent.NewMember p⟩)
  | .GroupMute p => b.group_mute_handlers.map (fun g => ⟨g.hid, QEvent.GroupMute p⟩)
  | .FriendMessageRecall p => b.friend_message_recall_handlers.map (fun g => ⟨g.hid, QEvent.FriendMessageRecall p⟩)
  | .GroupMessageRecall p => b.group_message_recall_handlers.map (fun g => ⟨g.hid, QEvent.GroupMessageRecall p⟩)
  | .NewFriend p => b.new_friend_handlers.map (fun g => ⟨g.hid, QEvent.NewFriend p⟩)
  | .GroupLeave p => b.group_leave_handlers.map (fun g => ⟨g.hid, QEvent.GroupLeave p⟩)
  | .FriendPoke p => b.friend_poke_handlers.map (fun g => ⟨g.hid, QEvent.FriendPoke p⟩)
  | .GroupNameUpdate p => b.group_name_update_handlers.map (fun g => ⟨g.hid, QEvent.GroupNameUpdate p⟩)
  | .DeleteFriend p => b.delete_friend_handlers.map (fun g => ⟨g.hid, QEvent.DeleteFriend p⟩)
  | .MemberPermissionChange p => b.member_permission_change_handlers.map (fun g => ⟨g.hid, QEvent.MemberPermissionChange p⟩)
  | .Unknown => []

/-- Every handler registered for the event's variant returns (does not panic)
when applied to the event's payload. -/
def noHandlerPanics (b : RQServiceBuilder) (e : QEvent) : Prop :=
  match e with
  | .LoginEvent p => ∀ g ∈ b.login_handlers, g.run p ≠ .panic
  | .GroupMessage p => ∀ g ∈ b.group_message_handlers, g.run p ≠ .panic
  | .PrivateMessage p => ∀ g ∈ b.private_message_handlers, g.run p ≠ .panic
  | .GroupRequest p => ∀ g ∈ b.group_request_handlers, g.run p ≠ .panic
  | .SelfInvited p => ∀ g ∈ b.self_invited_handlers, g.run p ≠ .panic
  | .FriendRequest p => ∀ g ∈ b.friend_request_handlers, g.run p ≠ .panic
  | .NewMember p => ∀ g ∈ b.new_member_handlers, g.run p ≠ .panic
  | .GroupMute p => ∀ g ∈ b.group_mute_handlers, g.run p ≠ .panic
  | .FriendMessageRecall p => ∀ g ∈ b.friend_message_recall_handlers, g.run p ≠ .panic
  | .GroupMessageRecall p => ∀ g ∈ b.group_message_recall_handlers, g.run p ≠ .panic
  | .NewFriend p => ∀ g ∈ b.new_friend_handlers, g.run p ≠ .panic
  | .GroupLeave p => ∀ g ∈ b.group_leave_handlers, g.run p ≠ .panic
  | .FriendPoke p => ∀ g ∈ b.friend_poke_handlers, g.run p ≠ .panic
  | .GroupNameUpdate p => ∀ g ∈ b.group_name_update_handlers, g.run p ≠ .panic
  | .DeleteFriend p => ∀ g ∈ b.delete_friend_handlers, g.run p ≠ .panic
  | .MemberPermissionChange p => ∀ g ∈ b.member_permission_change_handlers, g.run p ≠ .panic
  | .Unknown => True

/-- Number of handlers registered for the event's variant (0 for the catch-all). -/
def variantHandlerCount (b : RQServiceBuilder) (e : QEvent) : Nat :=
  match e with
  | .LoginEvent _ => b.login_handlers.length
  | .GroupMessage _ => b.group_message_handlers.length
  | .PrivateMessage _ => b.private_message_handlers.length
  | .GroupRequest _ => b.group_request_handlers.length
  | .SelfInvited _ => b.self_invited_handlers.length
  | .FriendRequest _ => b.friend_request_handlers.length
  | .NewMember _ => b.new_member_handlers.length
  | .GroupMute _ => b.group_mute_handlers.length
  | .FriendMessageRecall _ => b.friend_message_recall_handlers.length
  | .GroupMessageRecall _ => b.group_message_recall_handlers.length
  | .NewFriend _ => b.new_friend_handlers.length
  | .GroupLeave _ => b.group_leave_handlers.length
  | .FriendPoke _ => b.friend_poke_handlers.length
  | .GroupNameUpdate _ => b.group_name_update_handlers.length
  | .DeleteFriend _ => b.delete_friend_handlers.length
  | .MemberPermissionChange _ => b.member_permission_change_handlers.length
  | .Unknown => 0
/-- Embeds `poll_ready` of `impl Service<QEvent> for RQServiceBuilder`
(builder.rs lines 68-70): unconditionally `Poll::Ready(Ok(()))`. -/
def RQServiceBuilder.poll_ready (_b : RQServiceBuilder) : Poll (Except Infallible Unit) :=
  .ready (.ok ())

/-- Modelled from the spec: `tower::buffer::Buffer` (an external dependency, not
under src/) — the bounded FIFO Admission Queue with capacity fixed at
construction, a single Dispatch Core consumer bound to the frozen inner service,
and a lifecycle flag (`running = false` means the consumer is Stopped). -/
structure Buffer where
  service : RQServiceBuilder
  capacity : Nat
  queue : List QEvent
  running : Bool

/-- Modelled from the spec: `Buffer::new(service, bound)` allocates a fresh
empty queue with the given capacity and starts the consumer. -/
def Buffer.new (svc : RQServiceBuilder) (bound : Nat) : Buffer :=
  ⟨svc, bound, [], true⟩

/-- Embeds `RQService` (src/src/service/mod.rs line 25): a newtype over
`Buffer<RQServiceBuilder, QEvent>`. -/
structure RQService where
  buf : Buffer

/-- Embeds `RQServiceBuilder::build` (builder.rs lines 115-117):
`RQService(Buffer::new(self, 10))`. -/
def RQServiceBuilder.build (b : RQServiceBuilder) : RQService :=
  ⟨Buffer.new b 10⟩

/-- Modelled from the spec: outcome of one enqueue attempt on the admission
queue — admitted (with the new queue state), suspended because the queue is
full, or rejected because the consumer is Stopped (`ServiceUnavailable`). -/
inductive EnqueueOutcome where
  | enqueued (q : Buffer)
  | blocked
  | unavailable

/-- Modelled from the spec: `submit` at the queue level — `ServiceUnavailable`
when Stopped; suspension (not failure) while full; otherwise the envelope is
appended at the back of the FIFO and the call succeeds at once. -/
def Buffer.enqueue (q : Buffer) (e : QEvent) : EnqueueOutcome :=
  if q.running = false then .unavailable
  else if q.capacity ≤ q.queue.length then .blocked
  else .enqueued ⟨q.service, q.capacity, q.queue ++ [e], q.running⟩

/-- Modelled from the spec: one step of the Dispatch Core consumer — dequeue the
front envelope (if any) and fan it out through the inner service's `call`,
keeping the (unmutated) service for the next step. -/
def Buffer.consumeOne (q : Buffer) : Buffer × List Invocation :=
  match q.queue with
  | [] => (q, [])
  | e :: rest =>
    let r := q.service.call e
    (⟨r.1, q.capacity, rest, q.running⟩, r.2.trace)

/-- Outcome observed by a producer calling `RQService::handle`: success (with
the new shared state), suspension on a full queue, or a panic — the source wraps
the queue error in `.expect("RQService crashed")`. -/
inductive HandleOutcome where
  | ok (s : RQService)
  | blocked
  | panicked

/-- Embeds `Handler::handle` for `RQService` (mod.rs lines 12-23):
`self.0.clone().ready().await.expect("RQService crashed").call(msg).await.ok()`.
Under the spec-modelled Buffer, readiness plus `call` admit the envelope into
the queue and succeed immediately; no handler runs during submission (the
second component is the list of handler invocations performed by `handle`
itself). When the consumer is Stopped, `ready()` yields an error and the
`.expect` panics: `handle` has no error channel — it returns `()`. -/
def RQService.handle (s : RQService) (e : QEvent) : HandleOutcome × List Invocation :=
  match s.buf.enqueue e with
  | .enqueued q => (.ok ⟨q⟩, [])
  | .blocked => (.blocked, [])
  | .unavailable => (.panicked, [])

/-- Dispatch of a whole sequence of envelopes by the consumer, threading the
inner service state through `call` and concatenating the invocation traces. -/
def consume (b : RQServiceBuilder) : List QEvent → RQServiceBuilder × List Invocation
  | [] => (b, [])
  | e :: t =>
    let r := b.call e
    let rest := consume r.1 t
    (rest.1, r.2.trace ++ rest.2)

/-- Two's-complement wrap of an unbounded integer into the `i64` range, the
release-mode semantics of Rust integer overflow. -/
def wrap64 (x : Int) : Int :=
  (x + 2 ^ 63) % 2 ^ 64 - 2 ^ 63

/-- Embeds `call` of `impl Service<i64> for RQServiceBuilder` (builder.rs lines
171-177), the test fixture: sleep two seconds, then resolve to `Ok(req + 1)`
(with `i64` arithmetic). Modelled as the pair (delay in seconds, result). -/
def RQServiceBuilder.call_i64 (_b : RQServiceBuilder) (req : Int) : Nat × Int :=
  (2, wrap64 (req + 1))

theorem runHandlers_eq_map {α ε : Type} (p : α) (hs : List (Handler α ε))
    (h : ∀ g ∈ hs, g.run p ≠ .panic) :
    runHandlers p hs = (hs.map fun g => (g.hid, p), true) := by
  induction hs with
  | nil => rfl
  | cons g t ih =>
    have hg : g.run p ≠ .panic := h g (List.mem_cons_self g t)
    have ht : ∀ x ∈ t, x.run p ≠ HandlerStep.panic :=
      fun x hx => h x (List.mem_cons_of_mem g hx)
    unfold runHandlers
    cases hgp : g.run p with
    | ret r => simp [ih ht]
    | panic => exact absurd hgp hg

theorem dispatchArm {α : Type} (p : α) (hs : List (Handler α Infallible))
    (w : α → QEvent) (h : ∀ g ∈ hs, g.run p ≠ .panic) :
    (⟨(runHandlers p hs).1.map (fun x => ⟨x.1, w x.2⟩),
      (runHandlers p hs).2⟩ : DispatchResult)
      = ⟨hs.map (fun g => ⟨g.hid, w p⟩), true⟩ := by
  rw [runHandlers_eq_map p hs h]
  simp [List.map_map]

theorem dispatchArmNil {α : Type} (p : α) (hs : List (Handler α Infallible))
    (w : α → QEvent) (h : hs.length = 0) :
    (⟨(runHandlers p hs).1.map (fun x => ⟨x.1, w x.2⟩),
      (runHandlers p hs).2⟩ : DispatchResult)
      = ⟨[], true⟩ := by
  cases hs with
  | nil => rfl
  | cons g t => simp at h

theorem call_fst (b : RQServiceBuilder) (e : QEvent) : (b.call e).1 = b := by
  cases e <;> rfl

/-- Concrete registry with two returning handlers for `GroupMessage`, used by
the fan-out witness. -/
def sampleRegistry : RQServiceBuilder :=
  { RQServiceBuilder.new with
      group_message_handlers :=
        [⟨0, fun _ => .ret (.ok ())⟩, ⟨1, fun _ => .ret (.ok ())⟩] }

/-- C1: for every event whose variant has registered handlers, dispatching the
event invokes each registered handler exactly once, in registration (append)
order, each invocation receiving its own clone of the payload, and each
invocation awaited to completion before the next (the trace lists invocations
in execution order); stated under the hypothesis that every handler of that
variant returns, since a non-returning (panicking) handler is the subject of
the error-containment claim. -/
theorem dispatch_fanout_in_registration_order (b : RQServiceBuilder) (e : QEvent)
    (h : noHandlerPanics b e) :
    (b.call e).2 = ⟨expectedInvocations b e, true⟩ := by
  cases e with
  | LoginEvent p => exact dispatchArm p b.login_handlers (fun x => QEvent.LoginEvent x) h
  | GroupMessage p => exact dispatchArm p b.group_message_handlers (fun x => QEvent.GroupMessage x) h
  | PrivateMessage p => exact dispatchArm p b.private_message_handlers (fun x => QEvent.PrivateMessage x) h
  | GroupRequest p => exact dispatchArm p b.group_request_handlers (fun x => QEvent.GroupRequest x) h
  | SelfInvited p => exact dispatchArm p b.self_invited_handlers (fun x => QEvent.SelfInvited x) h
  | FriendRequest p => exact dispatchArm p b.friend_request_handlers (fun x => QEvent.FriendRequest x) h
  | NewMember p => exact dispatchArm p b.new_member_handlers (fun x => QEvent.NewMember x) h
  | GroupMute p => exact dispatchArm p b.group_mute_handlers (fun x => QEvent.GroupMute x) h
  | FriendMessageRecall p => exact dispatchArm p b.friend_message_recall_handlers (fun x => QEvent.FriendMessageRecall x) h
  | GroupMessageRecall p => exact dispatchArm p b.group_message_recall_handlers (fun x => QEvent.GroupMessageRecall x) h
  | NewFriend p => exact dispatchArm p b.new_friend_handlers (fun x => QEvent.NewFriend x) h
  | GroupLeave p => exact dispatchArm p b.group_leave_handlers (fun x => QEvent.GroupLeave x) h
  | FriendPoke p => exact dispatchArm p b.friend_poke_handlers (fun x => QEvent.FriendPoke x) h
  | GroupNameUpdate p => exact dispatchArm p b.group_name_update_handlers (fun x => QEvent.GroupNameUpdate x) h
  | DeleteFriend p => exact dispatchArm p b.delete_friend_handlers (fun x => QEvent.DeleteFriend x) h
  | MemberPermissionChange p => exact dispatchArm p b.member_permission_change_handlers (fun x => QEvent.MemberPermissionChange x) h
  | Unknown => exact rfl

/-- Witness for the fan-out theorem at a concrete two-handler registry. -/
theorem dispatch_fanout_in_registration_order_witness :
    noHandlerPanics sampleRegistry (QEvent.GroupMessage ⟨5⟩) ∧
    (sampleRegistry.call (QEvent.GroupMessage ⟨5⟩)).2
      = ⟨expectedInvocations sampleRegistry (QEvent.GroupMessage ⟨5⟩), true⟩ :=
  ⟨by simp only [noHandlerPanics]; decide,
   dispatch_fanout_in_registration_order sampleRegistry _
     (by simp only [noHandlerPanics]; decide)⟩

/-- C5: for every event whose variant has no registered handlers (including the
catch-all), dispatch is a no-op: it completes at once with an empty invocation
trace and no side effect. -/
theorem empty_variant_dispatch_noop (b : RQServiceBuilder) (e : QEvent)
    (h : variantHandlerCount b e = 0) :
    (b.call e).2 = ⟨[], true⟩ := by
  cases e with
  | LoginEvent p => exact dispatchArmNil p b.login_handlers (fun x => QEvent.LoginEvent x) h
  | GroupMessage p => exact dispatchArmNil p b.group_message_handlers (fun x => QEvent.GroupMessage x) h
  | PrivateMessage p => exact dispatchArmNil p b.private_message_handlers (fun x => QEvent.PrivateMessage x) h
  | GroupRequest p => exact dispatchArmNil p b.group_request_handlers (fun x => QEvent.GroupRequest x) h
  | SelfInvited p => exact dispatchArmNil p b.self_invited_handlers (fun x => QEvent.SelfInvited x) h
  | FriendRequest p => exact dispatchArmNil p b.friend_request_handlers (fun x => QEvent.FriendRequest x) h
  | NewMember p => exact dispatchArmNil p b.new_member_handlers (fun x => QEvent.NewMember x) h
  | GroupMute p => exact dispatchArmNil p b.group_mute_handlers (fun x => QEvent.GroupMute x) h
  | FriendMessageRecall p => exact dispatchArmNil p b.friend_message_recall_handlers (fun x => QEvent.FriendMessageRecall x) h
  | GroupMessageRecall p => exact dispatchArmNil p b.group_message_recall_handlers (fun x => QEvent.GroupMessageRecall x) h
  | NewFriend p => exact dispatchArmNil p b.new_friend_handlers (fun x => QEvent.NewFriend x) h
  | GroupLeave p => exact dispatchArmNil p b.group_leave_handlers (fun x => QEvent.GroupLeave x) h
  | FriendPoke p => exact dispatchArmNil p b.friend_poke_handlers (fun x => QEvent.FriendPoke x) h
  | GroupNameUpdate p => exact dispatchArmNil p b.group_name_update_handlers (fun x => QEvent.GroupNameUpdate x) h
  | DeleteFriend p => exact dispatchArmNil p b.delete_friend_handlers (fun x => QEvent.DeleteFriend x) h
  | MemberPermissionChange p => exact dispatchArmNil p b.member_permission_change_handlers (fun x => QEvent.MemberPermissionChange x) h
  | Unknown => exact rfl

/-- Witness for the no-op theorem on the empty registry. -/
theorem empty_variant_dispatch_noop_witness :
    variantHandlerCount RQServiceBuilder.new (QEvent.FriendPoke ⟨0⟩) = 0 ∧
    (RQServiceBuilder.new.call (QEvent.FriendPoke ⟨0⟩)).2 = ⟨[], true⟩ :=
  ⟨rfl, empty_variant_dispatch_noop RQServiceBuilder.new _ rfl⟩

/-- Registry with a panicking first handler and a returning second handler for
`GroupMessage`, used to examine fault containment. -/
def panicRegistry : RQServiceBuilder :=
  { RQServiceBuilder.new with
      group_message_handlers :=
        [⟨0, fun _ => .panic⟩, ⟨1, fun _ => .ret (.ok ())⟩] }

/-- Counterexample to C2: with a handler that terminates abnormally registered
first for `GroupMessage` and a second handler registered after it, the dispatch
future is unwound by the panic — the later-registered handler (id 1) is never
invoked and the dispatch does not run to completion, so the failure is not
contained at the single invocation. -/
theorem handler_panic_not_contained_cex :
    (panicRegistry.call (QEvent.GroupMessage ⟨0⟩)).2
        = ⟨[⟨0, QEvent.GroupMessage ⟨0⟩⟩], false⟩ ∧
    (⟨1, QEvent.GroupMessage ⟨0⟩⟩ : Invocation)
        ∉ (panicRegistry.call (QEvent.GroupMessage ⟨0⟩)).2.trace := by
  decide

/-- C2 (amended): containment holds exactly for handler invocations that
return — the returned result (necessarily `Ok`, the registered handlers' error
type being `Infallible`) is discarded by `.ok()` and the remaining handlers run
exactly as they would have, the loop's completion determined by them alone; but
the loop has no fault boundary, so an abnormal termination (panic) of a handler
aborts the dispatch with every later-registered handler uninvoked. -/
theorem handler_return_contained_panic_aborts :
    (∀ (α ε : Type) (g : Handler α ε) (hs : List (Handler α ε)) (p : α)
        (r : Except ε Unit), g.run p = .ret r →
        runHandlers p (g :: hs)
          = ((g.hid, p) :: (runHandlers p hs).1, (runHandlers p hs).2)) ∧
    (∀ (α ε : Type) (g : Handler α ε) (hs : List (Handler α ε)) (p : α),
        g.run p = .panic →
        runHandlers p (g :: hs) = ([(g.hid, p)], false)) := by
  constructor
  · intro α ε g hs p r hr
    simp only [runHandlers, hr]
  · intro α ε g hs p hr
    simp only [runHandlers, hr]

/-- Witness for the amended containment theorem: a handler returning an error
(over the inhabited error type `Unit`) is discarded and the rest of the loop
proceeds unchanged, while a panicking handler aborts the remainder. -/
theorem handler_return_contained_panic_aborts_witness :
    runHandlers (⟨3⟩ : GroupMessageEvent)
        [(⟨0, fun _ => .ret (.error ())⟩ : Handler GroupMessageEvent Unit),
         ⟨1, fun _ => .ret (.ok ())⟩]
      = ((0, (⟨3⟩ : GroupMessageEvent)) ::
           (runHandlers (⟨3⟩ : GroupMessageEvent)
             [(⟨1, fun _ => .ret (.ok ())⟩ : Handler GroupMessageEvent Unit)]).1,
         (runHandlers (⟨3⟩ : GroupMessageEvent)
             [(⟨1, fun _ => .ret (.ok ())⟩ : Handler GroupMessageEvent Unit)]).2) ∧
    runHandlers (⟨3⟩ : GroupMessageEvent)
        [(⟨4, fun _ => .panic⟩ : Handler GroupMessageEvent Unit),
         ⟨5, fun _ => .ret (.ok ())⟩]
      = ([(4, (⟨3⟩ : GroupMessageEvent))], false) :=
  ⟨handler_return_contained_panic_aborts.1 GroupMessageEvent Unit
      ⟨0, fun _ => .ret (.error ())⟩ _ ⟨3⟩ (.error ()) rfl,
   handler_return_contained_panic_aborts.2 GroupMessageEvent Unit
      ⟨4, fun _ => .panic⟩ _ ⟨3⟩ rfl⟩

/-- C6: each registration method appends the wrapped handler at the end of its
own variant's list and leaves every other variant's list unchanged; the
operation is a total function, so registration has no failure mode. -/
theorem registration_appends_and_frames :
    (∀ (b : RQServiceBuilder) (n : Nat) (f : Int → UserRun),
      (b.on_login n f).login_handlers = b.login_handlers ++ [wrapHandler n f]
      ∧ ((b.on_login n f).group_message_handlers,
       (b.on_login n f).private_message_handlers,
       (b.on_login n f).group_request_handlers,
       (b.on_login n f).self_invited_handlers,
       (b.on_login n f).friend_request_handlers,
       (b.on_login n f).new_member_handlers,
       (b.on_login n f).group_mute_handlers,
       (b.on_login n f).friend_message_recall_handlers,
       (b.on_login n f).group_message_recall_handlers,
       (b.on_login n f).new_friend_handlers,
       (b.on_login n f).group_leave_handlers,
       (b.on_login n f).friend_poke_handlers,
       (b.on_login n f).group_name_update_handlers,
       (b.on_login n f).delete_friend_handlers,
       (b.on_login n f).member_permission_change_handlers)
        = (b.group_message_handlers, b.private_message_handlers, b.group_request_handlers, b.self_invited_handlers, b.friend_request_handlers, b.new_member_handlers, b.group_mute_handlers, b.friend_message_recall_handlers, b.group_message_recall_handlers, b.new_friend_handlers, b.group_leave_handlers, b.friend_poke_handlers, b.group_name_update_handlers, b.delete_friend_handlers, b.member_permission_change_handlers)) ∧
    (∀ (b : RQServiceBuilder) (n : Nat) (f : GroupMessageEvent → UserRun),
      (b.on_group_message n f).group_message_handlers = b.group_message_handlers ++ [wrapHandler n f]
      ∧ ((b.on_group_message n f).login_handlers,
       (b.on_group_message n f).private_message_handlers,
       (b.on_group_message n f).group_request_handlers,
       (b.on_group_message n f).self_invited_handlers,
       (b.on_group_message n f).friend_request_handlers,
       (b.on_group_message n f).new_member_handlers,
       (b.on_group_message n f).group_mute_handlers,
       (b.on_group_message n f).friend_message_recall_handlers,
       (b.on_group_message n f).group_message_recall_handlers,
       (b.on_group_message n f).new_friend_handlers,
       (b.on_group_message n f).group_leave_handlers,
       (b.on_group_message n f).friend_poke_handlers,
       (b.on_group_message n f).group_name_update_handlers,
       (b.on_group_message n f).delete_friend_handlers,
       (b.on_group_message n f).member_permission_change_handlers)
        = (b.login_handlers, b.private_message_handlers, b.group_request_handlers, b.self_invited_handlers, b.friend_request_handlers, b.new_member_handlers, b.group_mute_handlers, b.friend_message_recall_handlers, b.group_message_recall_handlers, b.new_friend_handlers, b.group_leave_handlers, b.friend_poke_handlers, b.group_name_update_handlers, b.delete_friend_handlers, b.member_permission_change_handlers)) ∧
    (∀ (b : RQServiceBuilder) (n : Nat) (f : PrivateMessageEvent → UserRun),
      (b.on_private_message n f).private_message_handlers = b.private_message_handlers ++ [wrapHandler n f]
      ∧ ((b.on_private_message n f).login_handlers,
       (b.on_private_message n f).group_message_handlers,
       (b.on_private_message n f).group_request_handlers,
       (b.on_private_message n f).self_invited_handlers,
       (b.on_private_message n f).friend_request_handlers,
       (b.on_private_message n f).new_member_handlers,
       (b.on_private_message n f).group_mute_handlers,
       (b.on_private_message n f).friend_message_recall_handlers,
       (b.on_private_message n f).group_message_recall_handlers,
       (b.on_private_message n f).new_friend_handlers,
       (b.on_private_message n f).group_leave_handlers,
       (b.on_private_message n f).friend_poke_handlers,
       (b.on_private_message n f).group_name_update_handlers,
       (b.on_private_message n f).delete_friend_handlers,
       (b.on_private_message n f).member_permission_change_handlers)
        = (b.login_handlers, b.group_message_handlers, b.group_request_handlers, b.self_invited_handlers, b.friend_request_handlers, b.new_member_handlers, b.group_mute_handlers, b.friend_message_recall_handlers, b.group_message_recall_handlers, b.new_friend_handlers, b.group_leave_handlers, b.friend_poke_handlers, b.group_name_update_handlers, b.delete_friend_handlers, b.member_permission_change_handlers)) ∧
    (∀ (b : RQServiceBuilder) (n : Nat) (f : GroupRequestEvent → UserRun),
      (b.on_group_request n f).group_request_handlers = b.group_request_handlers ++ [wrapHandler n f]
      ∧ ((b.on_group_request n f).login_handlers,
       (b.on_group_request n f).group_message_handlers,
       (b.on_group_request n f).private_message_handlers,
       (b.on_group_request n f).self_invited_handlers,
       (b.on_group_request n f).friend_request_handlers,
       (b.on_group_request n f).new_member_handlers,
       (b.on_group_request n f).group_mute_handlers,
       (b.on_group_request n f).friend_message_recall_handlers,
       (b.on_group_request n f).group_message_recall_handlers,
       (b.on_group_request n f).new_friend_handlers,
       (b.on_group_request n f).group_leave_handlers,
       (b.on_group_request n f).friend_poke_handlers,
       (b.on_group_request n f).group_name_update_handlers,
       (b.on_group_request n f).delete_friend_handlers,
       (b.on_group_request n f).member_permission_change_handlers)
        = (b.login_handlers, b.group_message_handlers, b.private_message_handlers, b.self_invited_handlers, b.friend_request_handlers, b.new_member_handlers, b.group_mute_handlers, b.friend_message_recall_handlers, b.group_message_recall_handlers, b.new_friend_handlers, b.group_leave_handlers, b.friend_poke_handlers, b.group_name_update_handlers, b.delete_friend_handlers, b.member_permission_change_handlers)) ∧
    (∀ (b : RQServiceBuilder) (n : Nat) (f : SelfInvitedEvent → UserRun),
      (b.on_self_invited n f).self_invited_handlers = b.self_invited_handlers ++ [wrapHandler n f]
      ∧ ((b.on_self_invited n f).login_handlers,
       (b.on_self_invited n f).group_message_handlers,
       (b.on_self_invited n f).private_message_handlers,
       (b.on_self_invited n f).group_request_handlers,
       (b.on_self_invited n f).friend_request_handlers,
       (b.on_self_invited n f).new_member_handlers,
       (b.on_self_invited n f).group_mute_handlers,
       (b.on_self_invited n f).friend_message_recall_handlers,
       (b.on_self_invited n f).group_message_recall_handlers,
       (b.on_self_invited n f).new_friend_handlers,
       (b.on_self_invited n f).group_leave_handlers,
       (b.on_self_invited n f).friend_poke_handlers,
       (b.on_self_invited n f).group_name_update_handlers,
       (b.on_self_invited n f).delete_friend_handlers,
       (b.on_self_invited n f).member_permission_change_handlers)
        = (b.login_handlers, b.group_message_handlers, b.private_message_handlers, b.group_request_handlers, b.friend_request_handlers, b.new_member_handlers, b.group_mute_handlers, b.friend_message_recall_handlers, b.group_message_recall_handlers, b.new_friend_handlers, b.group_leave_handlers, b.friend_poke_handlers, b.group_name_update_handlers, b.delete_friend_handlers, b.member_permission_change_handlers)) ∧
    (∀ (b : RQServiceBuilder) (n : Nat) (f : FriendRequestEvent → UserRun),
      (b.on_friend_request n f).friend_request_handlers = b.friend_request_handlers ++ [wrapHandler n f]
      ∧ ((b.on_friend_request n f).login_handlers,
       (b.on_friend_request n f).group_message_handlers,
       (b.on_friend_request n f).private_message_handlers,
       (b.on_friend_request n f).group_request_handlers,
       (b.on_friend_request n f).self_invited_handlers,
       (b.on_friend_request n f).new_member_handlers,
       (b.on_friend_request n f).group_mute_handlers,
       (b.on_friend_request n f).friend_message_recall_handlers,
       (b.on_friend_request n f).group_message_recall_handlers,
       (b.on_friend_request n f).new_friend_handlers,
       (b.on_friend_request n f).group_leave_handlers,
       (b.on_friend_request n f).friend_poke_handlers,
       (b.on_friend_request n f).group_name_update_handlers,
       (b.on_friend_request n f).delete_friend_handlers,
       (b.on_friend_request n f).member_permission_change_handlers)
        = (b.login_handlers, b.group_message_handlers, b.private_message_handlers, b.group_request_handlers, b.self_invited_handlers, b.new_member_handlers, b.group_mute_handlers, b.friend_message_recall_handlers, b.group_message_recall_handlers, b.new_friend_handlers, b.group_leave_handlers, b.friend_poke_handlers, b.group_name_update_handlers, b.delete_friend_handlers, b.member_permission_change_handlers)) ∧
    (∀ (b : RQServiceBuilder) (n : Nat) (f : NewMemberEvent → UserRun),
      (b.on_new_member n f).new_member_handlers = b.new_member_handlers ++ [wrapHandler n f]
      ∧ ((b.on_new_member n f).login_handlers,
       (b.on_new_member n f).group_message_handlers,
       (b.on_new_member n f).private_message_handlers,
       (b.on_new_member n f).group_request_handlers,
       (b.on_new_member n f).self_invited_handlers,
       (b.on_new_member n f).friend_request_handlers,
       (b.on_new_member n f).group_mute_handlers,
       (b.on_new_member n f).friend_message_recall_handlers,
       (b.on_new_member n f).group_message_recall_handlers,
       (b.on_new_member n f).new_friend_handlers,
       (b.on_new_member n f).group_leave_handlers,
       (b.on_new_member n f).friend_poke_handlers,
       (b.on_new_member n f).group_name_update_handlers,
       (b.on_new_member n f).delete_friend_handlers,
       (b.on_new_member n f).member_permission_change_handlers)
        = (b.login_handlers, b.group_message_handlers, b.private_message_handlers, b.group_request_handlers, b.self_invited_handlers, b.friend_request_handlers, b.group_mute_handlers, b.friend_message_recall_handlers, b.group_message_recall_handlers, b.new_friend_handlers, b.group_leave_handlers, b.friend_poke_handlers, b.group_name_update_handlers, b.delete_friend_handlers, b.member_permission_change_handlers)) ∧
    (∀ (b : RQServiceBuilder) (n : Nat) (f : GroupMuteEvent → UserRun),
      (b.on_group_mute n f).group_mute_handlers = b.group_mute_handlers ++ [wrapHandler n f]
      ∧ ((b.on_group_mute n f).login_handlers,
       (b.on_group_mute n f).group_message_handlers,
       (b.on_group_mute n f).private_message_handlers,
       (b.on_group_mute n f).group_request_handlers,
       (b.on_group_mute n f).self_invited_handlers,
       (b.on_group_mute n f).friend_request_handlers,
       (b.on_group_mute n f).new_member_handlers,
       (b.on_group_mute n f).friend_message_recall_handlers,
       (b.on_group_mute n f).group_message_recall_handlers,
       (b.on_group_mute n f).new_friend_handlers,
       (b.on_group_mute n f).group_leave_handlers,
       (b.on_group_mute n f).friend_poke_handlers,
       (b.on_group_mute n f).group_name_update_handlers,
       (b.on_group_mute n f).delete_friend_handlers,
       (b.on_group_mute n f).member_permission_change_handlers)
        = (b.login_handlers, b.group_message_handlers, b.private_message_handlers, b.group_request_handlers, b.self_invited_handlers, b.friend_request_handlers, b.new_member_handlers, b.friend_message_recall_handlers, b.group_message_recall_handlers, b.new_friend_handlers, b.group_leave_handlers, b.friend_poke_handlers, b.group_name_update_handlers, b.delete_friend_handlers, b.member_permission_change_handlers)) ∧
    (∀ (b : RQServiceBuilder) (n : Nat) (f : FriendMessageRecallEvent → UserRun),
      (b.on_friend_message_recall n f).friend_message_recall_handlers = b.friend_message_recall_handlers ++ [wrapHandler n f]
      ∧ ((b.on_friend_message_recall n f).login_handlers,
       (b.on_friend_message_recall n f).group_message_handlers,
       (b.on_friend_message_recall n f).private_message_handlers,
       (b.on_friend_message_recall n f).group_request_handlers,
       (b.on_friend_message_recall n f).self_invited_handlers,
       (b.on_friend_message_recall n f).friend_request_handlers,
       (b.on_friend_message_recall n f).new_member_handlers,
       (b.on_friend_message_recall n f).group_mute_handlers,
       (b.on_friend_message_recall n f).group_message_recall_handlers,
       (b.on_friend_message_recall n f).new_friend_handlers,
       (b.on_friend_message_recall n f).group_leave_handlers,
       (b.on_friend_message_recall n f).friend_poke_handlers,
       (b.on_friend_message_recall n f).group_name_update_handlers,
       (b.on_friend_message_recall n f).delete_friend_handlers,
       (b.on_friend_message_recall n f).member_permission_change_handlers)
        = (b.login_handlers, b.group_message_handlers, b.private_message_handlers, b.group_request_handlers, b.self_invited_handlers, b.friend_request_handlers, b.new_member_handlers, b.group_mute_handlers, b.group_message_recall_handlers, b.new_friend_handlers, b.group_leave_handlers, b.friend_poke_handlers, b.group_name_update_handlers, b.delete_friend_handlers, b.member_permission_change_handlers)) ∧
    (∀ (b : RQServiceBuilder) (n : Nat) (f : GroupMessageRecallEvent → UserRun),
      (b.on_group_message_recall n f).group_message_recall_handlers = b.group_message_recall_handlers ++ [wrapHandler n f]
      ∧ ((b.on_group_message_recall n f).login_handlers,
       (b.on_group_message_recall n f).group_message_handlers,
       (b.on_group_message_recall n f).private_message_handlers,
       (b.on_group_message_recall n f).group_request_handlers,
       (b.on_group_message_recall n f).self_invited_handlers,
       (b.on_group_message_recall n f).friend_request_handlers,
       (b.on_group_message_recall n f).new_member_handlers,
       (b.on_group_message_recall n f).group_mute_handlers,
       (b.on_group_message_recall n f).friend_message_recall_handlers,
       (b.on_group_message_recall n f).new_friend_handlers,
       (b.on_group_message_recall n f).group_leave_handlers,
       (b.on_group_message_recall n f).friend_poke_handlers,
       (b.on_group_message_recall n f).group_name_update_handlers,
       (b.on_group_message_recall n f).delete_friend_handlers,
       (b.on_group_message_recall n f).member_permission_change_handlers)
        = (b.login_handlers, b.group_message_handlers, b.private_message_handlers, b.group_request_handlers, b.self_invited_handlers, b.friend_request_handlers, b.new_member_handlers, b.group_mute_handlers, b.friend_message_recall_handlers, b.new_friend_handlers, b.group_leave_handlers, b.friend_poke_handlers, b.group_name_update_handlers, b.delete_friend_handlers, b.member_permission_change_handlers)) ∧
    (∀ (b : RQServiceBuilder) (n : Nat) (f : NewFriendEvent → UserRun),
      (b.on_new_friend n f).new_friend_handlers = b.new_friend_handlers ++ [wrapHandler n f]
      ∧ ((b.on_new_friend n f).login_handlers,
       (b.on_new_friend n f).group_message_handlers,
       (b.on_new_friend n f).private_message_handlers,
       (b.on_new_friend n f).group_request_handlers,
       (b.on_new_friend n f).self_invited_handlers,
       (b.on_new_friend n f).friend_request_handlers,
       (b.on_new_friend n f).new_member_handlers,
       (b.on_new_friend n f).group_mute_handlers,
       (b.on_new_friend n f).friend_message_recall_handlers,
       (b.on_new_friend n f).group_message_recall_handlers,
       (b.on_new_friend n f).group_leave_handlers,
       (b.on_new_friend n f).friend_poke_handlers,
       (b.on_new_friend n f).group_name_update_handlers,
       (b.on_new_friend n f).delete_friend_handlers,
       (b.on_new_friend n f).member_permission_change_handlers)
        = (b.login_handlers, b.group_message_handlers, b.private_message_handlers, b.group_request_handlers, b.self_invited_handlers, b.friend_request_handlers, b.new_member_handlers, b.group_mute_handlers, b.friend_message_recall_handlers, b.group_message_recall_handlers, b.group_leave_handlers, b.friend_poke_handlers, b.group_name_update_handlers, b.delete_friend_handlers, b.member_permission_change_handlers)) ∧
    (∀ (b : RQServiceBuilder) (n : Nat) (f : GroupLeaveEvent → UserRun),
      (b.on_group_leave n f).group_leave_handlers = b.group_leave_handlers ++ [wrapHandler n f]
      ∧ ((b.on_group_leave n f).login_handlers,
       (b.on_group_leave n f).group_message_handlers,
       (b.on_group_leave n f).private_message_handlers,
       (b.on_group_leave n f).group_request_handlers,
       (b.on_group_leave n f).self_invited_handlers,
       (b.on_group_leave n f).friend_request_handlers,
       (b.on_group_leave n f).new_member_handlers,
       (b.on_group_leave n f).group_mute_handlers,
       (b.on_group_leave n f).friend_message_recall_handlers,
       (b.on_group_leave n f).group_message_recall_handlers,
       (b.on_group_leave n f).new_friend_handlers,
       (b.on_group_leave n f).friend_poke_handlers,
       (b.on_group_leave n f).group_name_update_handlers,
       (b.on_group_leave n f).delete_friend_handlers,
       (b.on_group_leave n f).member_permission_change_handlers)
        = (b.login_handlers, b.group_message_handlers, b.private_message_handlers, b.group_request_handlers, b.self_invited_handlers, b.friend_request_handlers, b.new_member_handlers, b.group_mute_handlers, b.friend_message_recall_handlers, b.group_message_recall_handlers, b.new_friend_handlers, b.friend_poke_handlers, b.group_name_update_handlers, b.delete_friend_handlers, b.member_permission_change_handlers)) ∧
    (∀ (b : RQServiceBuilder) (n : Nat) (f : FriendPokeEvent → UserRun),
      (b.on_friend_poke n f).friend_poke_handlers = b.friend_poke_handlers ++ [wrapHandler n f]
      ∧ ((b.on_friend_poke n f).login_handlers,
       (b.on_friend_poke n f).group_message_handlers,
       (b.on_friend_poke n f).private_message_handlers,
       (b.on_friend_poke n f).group_request_handlers,
       (b.on_friend_poke n f).self_invited_handlers,
       (b.on_friend_poke n f).friend_request_handlers,
       (b.on_friend_poke n f).new_member_handlers,
       (b.on_friend_poke n f).group_mute_handlers,
       (b.on_friend_poke n f).friend_message_recall_handlers,
       (b.on_friend_poke n f).group_message_recall_handlers,
       (b.on_friend_poke n f).new_friend_handlers,
       (b.on_friend_poke n f).group_leave_handlers,
       (b.on_friend_poke n f).group_name_update_handlers,
       (b.on_friend_poke n f).delete_friend_handlers,
       (b.on_friend_poke n f).member_permission_change_handlers)
        = (b.login_handlers, b.group_message_handlers, b.private_message_handlers, b.group_request_handlers, b.self_invited_handlers, b.friend_request_handlers, b.new_member_handlers, b.group_mute_handlers, b.friend_message_recall_handlers, b.group_message_recall_handlers, b.new_friend_handlers, b.group_leave_handlers, b.group_name_update_handlers, b.delete_friend_handlers, b.member_permission_change_handlers)) ∧
    (∀ (b : RQServiceBuilder) (n : Nat) (f : GroupNameUpdateEvent → UserRun),
      (b.on_group_name_update n f).group_name_update_handlers = b.group_name_update_handlers ++ [wrapHandler n f]
      ∧ ((b.on_group_name_update n f).login_handlers,
       (b.on_group_name_update n f).group_message_handlers,
       (b.on_group_name_update n f).private_message_handlers,
       (b.on_group_name_update n f).group_request_handlers,
       (b.on_group_name_update n f).self_invited_handlers,
       (b.on_group_name_update n f).friend_request_handlers,
       (b.on_group_name_update n f).new_member_handlers,
       (b.on_group_name_update n f).group_mute_handlers,
       (b.on_group_name_update n f).friend_message_recall_handlers,
       (b.on_group_name_update n f).group_message_recall_handlers,
       (b.on_group_name_update n f).new_friend_handlers,
       (b.on_group_name_update n f).group_leave_handlers,
       (b.on_group_name_update n f).friend_poke_handlers,
       (b.on_group_name_update n f).delete_friend_handlers,
       (b.on_group_name_update n f).member_permission_change_handlers)
        = (b.login_handlers, b.group_message_handlers, b.private_message_handlers, b.group_request_handlers, b.self_invited_handlers, b.friend_request_handlers, b.new_member_handlers, b.group_mute_handlers, b.friend_message_recall_handlers, b.group_message_recall_handlers, b.new_friend_handlers, b.group_leave_handlers, b.friend_poke_handlers, b.delete_friend_handlers, b.member_permission_change_handlers)) ∧
    (∀ (b : RQServiceBuilder) (n : Nat) (f : DeleteFriendEvent → UserRun),
      (b.on_delete_friend n f).delete_friend_handlers = b.delete_friend_handlers ++ [wrapHandler n f]
      ∧ ((b.on_delete_friend n f).login_handlers,
       (b.on_delete_friend n f).group_message_handlers,
       (b.on_delete_friend n f).private_message_handlers,
       (b.on_delete_friend n f).group_request_handlers,
       (b.on_delete_friend n f).self_invited_handlers,
       (b.on_delete_friend n f).friend_request_handlers,
       (b.on_delete_friend n f).new_member_handlers,
       (b.on_delete_friend n f).group_mute_handlers,
       (b.on_delete_friend n f).friend_message_recall_handlers,
       (b.on_delete_friend n f).group_message_recall_handlers,
       (b.on_delete_friend n f).new_friend_handlers,
       (b.on_delete_friend n f).group_leave_handlers,
       (b.on_delete_friend n f).friend_poke_handlers,
       (b.on_delete_friend n f).group_name_update_handlers,
       (b.on_delete_friend n f).member_permission_change_handlers)
        = (b.login_handlers, b.group_message_handlers, b.private_message_handlers, b.group_request_handlers, b.self_invited_handlers, b.friend_request_handlers, b.new_member_handlers, b.group_mute_handlers, b.friend_message_recall_handlers, b.group_message_recall_handlers, b.new_friend_handlers, b.group_leave_handlers, b.friend_poke_handlers, b.group_name_update_handlers, b.member_permission_change_handlers)) ∧
    (∀ (b : RQServiceBuilder) (n : Nat) (f : MemberPermissionChangeEvent → UserRun),
      (b.on_member_permission_change n f).member_permission_change_handlers = b.member_permission_change_handlers ++ [wrapHandler n f]
      ∧ ((b.on_member_permission_change n f).login_handlers,
       (b.on_member_permission_change n f).group_message_handlers,
       (b.on_member_permission_change n f).private_message_handlers,
       (b.on_member_permission_change n f).group_request_handlers,
       (b.on_member_permission_change n f).self_invited_handlers,
       (b.on_member_permission_change n f).friend_request_handlers,
       (b.on_member_permission_change n f).new_member_handlers,
       (b.on_member_permission_change n f).group_mute_handlers,
       (b.on_member_permission_change n f).friend_message_recall_handlers,
       (b.on_member_permission_change n f).group_message_recall_handlers,
       (b.on_member_permission_change n f).new_friend_handlers,
       (b.on_member_permission_change n f).group_leave_handlers,
       (b.on_member_permission_change n f).friend_poke_handlers,
       (b.on_member_permission_change n f).group_name_update_handlers,
       (b.on_member_permission_change n f).delete_friend_handlers)
        = (b.login_handlers, b.group_message_handlers, b.private_message_handlers, b.group_request_handlers, b.self_invited_handlers, b.friend_request_handlers, b.new_member_handlers, b.group_mute_handlers, b.friend_message_recall_handlers, b.group_message_recall_handlers, b.new_friend_handlers, b.group_leave_handlers, b.friend_poke_handlers, b.group_name_update_handlers, b.delete_friend_handlers)) :=
  ⟨fun _ _ _ => ⟨rfl, rfl⟩, fun _ _ _ => ⟨rfl, rfl⟩, fun _ _ _ => ⟨rfl, rfl⟩, fun _ _ _ => ⟨rfl, rfl⟩, fun _ _ _ => ⟨rfl, rfl⟩, fun _ _ _ => ⟨rfl, rfl⟩, fun _ _ _ => ⟨rfl, rfl⟩, fun _ _ _ => ⟨rfl, rfl⟩, fun _ _ _ => ⟨rfl, rfl⟩, fun _ _ _ => ⟨rfl, rfl⟩, fun _ _ _ => ⟨rfl, rfl⟩, fun _ _ _ => ⟨rfl, rfl⟩, fun _ _ _ => ⟨rfl, rfl⟩, fun _ _ _ => ⟨rfl, rfl⟩, fun _ _ _ => ⟨rfl, rfl⟩, fun _ _ _ => ⟨rfl, rfl⟩⟩

/-- C3 (spec-modelled admission queue): for every envelope submitted to a live
service whose queue has free capacity, `handle` appends the envelope at the back
of the FIFO and returns success at once — no handler invocation happens during
submission, decoupling producer cadence from handler latency. -/
theorem submit_admission_immediate (s : RQService) (e : QEvent)
    (hrun : s.buf.running = true)
    (hcap : s.buf.queue.length < s.buf.capacity) :
    s.handle e
      = (.ok ⟨⟨s.buf.service, s.buf.capacity, s.buf.queue ++ [e], s.buf.running⟩⟩,
         []) := by
  unfold RQService.handle Buffer.enqueue
  rw [hrun]
  simp [Nat.not_le.mpr hcap]

/-- Witness for the immediate-admission theorem on a freshly built service. -/
theorem submit_admission_immediate_witness :
    RQServiceBuilder.new.build.buf.running = true ∧
    RQServiceBuilder.new.build.buf.queue.length
        < RQServiceBuilder.new.build.buf.capacity ∧
    RQServiceBuilder.new.build.handle QEvent.Unknown
      = (.ok ⟨⟨RQServiceBuilder.new, 10, [QEvent.Unknown], true⟩⟩, []) :=
  ⟨rfl, by decide, submit_admission_immediate RQServiceBuilder.new.build QEvent.Unknown
      rfl (by decide)⟩

/-- Stopped service used by the teardown counterexample. -/
def stoppedService : RQService :=
  ⟨⟨RQServiceBuilder.new, 10, [], false⟩⟩

/-- Counterexample to C4: submitting to a torn-down (Stopped) service does not
return a `ServiceUnavailable` error to the caller — the queue-level submit does
report unavailability, but `Handler::handle` (mod.rs lines 14-22) has no error
return channel and its `.expect("RQService crashed")` turns that error into a
panic, so the producer observes a crash, not an error value. -/
theorem submit_after_teardown_panics_cex :
    stoppedService.buf.enqueue QEvent.Unknown = .unavailable ∧
    stoppedService.handle QEvent.Unknown = (.panicked, []) :=
  ⟨rfl, rfl⟩

/-- C4 (amended, spec-modelled admission queue): for every envelope submitted
after teardown, nothing is enqueued and no handler is invoked, and the
queue-level submit reports `ServiceUnavailable`; the `handle` wrapper, however,
panics on that error instead of returning it. -/
theorem submit_after_teardown_no_enqueue (s : RQService) (e : QEvent)
    (h : s.buf.running = false) :
    s.buf.enqueue e = .unavailable ∧ s.handle e = (.panicked, []) := by
  unfold RQService.handle Buffer.enqueue
  rw [h]
  simp

/-- Witness for the teardown theorem at a concrete stopped service. -/
theorem submit_after_teardown_no_enqueue_witness :
    (⟨⟨RQServiceBuilder.new, 10, [QEvent.Unknown], false⟩⟩ : RQService).buf.enqueue
        (QEvent.FriendPoke ⟨1⟩) = .unavailable ∧
    (⟨⟨RQServiceBuilder.new, 10, [QEvent.Unknown], false⟩⟩ : RQService).handle
        (QEvent.FriendPoke ⟨1⟩) = (.panicked, []) :=
  submit_after_teardown_no_enqueue ⟨⟨RQServiceBuilder.new, 10, [QEvent.Unknown], false⟩⟩
    (QEvent.FriendPoke ⟨1⟩) rfl

/-- C7: after `build()` the registry is frozen — the handle returned by `build`
carries exactly the builder's registry, the consumer's dispatch of any sequence
of events leaves the registry (all per-variant lists, contents and order)
unchanged, and a successful submit leaves it untouched as well. -/
theorem registry_frozen_after_build :
    (∀ (b : RQServiceBuilder) (es : List QEvent), (consume b es).1 = b) ∧
    (∀ b : RQServiceBuilder, b.build.buf.service = b) ∧
    (∀ (s s' : RQService) (e : QEvent) (tr : List Invocation),
        s.handle e = (.ok s', tr) → s'.buf.service = s.buf.service) := by
  refine ⟨?_, fun b => rfl, ?_⟩
  · intro b es
    induction es generalizing b with
    | nil => rfl
    | cons e t ih =>
      show (consume (b.call e).1 t).1 = b
      rw [call_fst]
      exact ih b
  · intro s s' e tr h
    unfold RQService.handle Buffer.enqueue at h
    split at h
    · rename_i q heq
      simp only [Prod.mk.injEq, HandleOutcome.ok.injEq] at h
      rw [← h.1]
      split at heq
      · cases heq
      · split at heq
        · cases heq
        · injection heq with h3
          rw [← h3]
    · simp at h
    · simp at h

/-- Witness for the frozen-registry theorem: a concrete successful submit. -/
theorem registry_frozen_after_build_witness :
    RQServiceBuilder.new.build.handle QEvent.Unknown
        = (.ok ⟨⟨RQServiceBuilder.new, 10, [QEvent.Unknown], true⟩⟩, []) ∧
    (⟨⟨RQServiceBuilder.new, 10, [QEvent.Unknown], true⟩⟩ : RQService).buf.service
        = RQServiceBuilder.new.build.buf.service :=
  ⟨rfl, registry_frozen_after_build.2.2 RQServiceBuilder.new.build
      ⟨⟨RQServiceBuilder.new, 10, [QEvent.Unknown], true⟩⟩ QEvent.Unknown [] rfl⟩

/-- C8 (spec-modelled admission queue): `build()` allocates the queue empty with
the default capacity 10; an admitted enqueue preserves `length ≤ capacity` (the
length is a `Nat`, so `0 ≤ length` holds by type) and never changes the
capacity; a consumer step never grows the queue; and an enqueue on a live full
queue suspends the caller (`blocked`) rather than failing or dropping the
envelope. -/
theorem admission_queue_bounds :
    (∀ b : RQServiceBuilder, b.build.buf.capacity = 10 ∧ b.build.buf.queue = []) ∧
    (∀ (q q' : Buffer) (e : QEvent), q.enqueue e = .enqueued q' →
        q'.queue.length ≤ q'.capacity ∧ q'.capacity = q.capacity) ∧
    (∀ q : Buffer, q.consumeOne.1.queue.length ≤ q.queue.length ∧
        q.consumeOne.1.capacity = q.capacity) ∧
    (∀ (q : Buffer) (e : QEvent), q.running = true → q.capacity ≤ q.queue.length →
        q.enqueue e = .blocked) := by
  refine ⟨fun b => ⟨rfl, rfl⟩, ?_, ?_, ?_⟩
  · intro q q' e h
    unfold Buffer.enqueue at h
    split at h
    · cases h
    · split at h
      · cases h
      · rename_i hfull
        injection h with h3
        rw [← h3]
        refine ⟨?_, rfl⟩
        have hlt := Nat.lt_of_not_le hfull
        simp only [List.length_append, List.length_cons, List.length_nil]
        omega
  · intro q
    obtain ⟨svc, cap, qu, run⟩ := q
    cases qu with
    | nil => exact ⟨Nat.le_refl _, rfl⟩
    | cons e rest => exact ⟨Nat.le_succ _, rfl⟩
  · intro q e hrun hfull
    unfold Buffer.enqueue
    rw [hrun]
    simp [hfull]

/-- Witness for the queue-bounds theorem: a concrete admitted enqueue and a
concrete suspension on a full queue. -/
theorem admission_queue_bounds_witness :
    ((⟨RQServiceBuilder.new, 10, [], true⟩ : Buffer).enqueue QEvent.Unknown
        = .enqueued ⟨RQServiceBuilder.new, 10, [QEvent.Unknown], true⟩) ∧
    ((⟨RQServiceBuilder.new, 10, [QEvent.Unknown], true⟩ : Buffer).queue.length
          ≤ (⟨RQServiceBuilder.new, 10, [QEvent.Unknown], true⟩ : Buffer).capacity ∧
      (⟨RQServiceBuilder.new, 10, [QEvent.Unknown], true⟩ : Buffer).capacity
          = (⟨RQServiceBuilder.new, 10, [], true⟩ : Buffer).capacity) ∧
    (⟨RQServiceBuilder.new, 1, [QEvent.Unknown], true⟩ : Buffer).enqueue
        (QEvent.FriendPoke ⟨2⟩) = .blocked :=
  ⟨rfl,
   admission_queue_bounds.2.1 ⟨RQServiceBuilder.new, 10, [], true⟩
     ⟨RQServiceBuilder.new, 10, [QEvent.Unknown], true⟩ QEvent.Unknown rfl,
   admission_queue_bounds.2.2.2 ⟨RQServiceBuilder.new, 1, [QEvent.Unknown], true⟩
     (QEvent.FriendPoke ⟨2⟩) rfl (by decide)⟩

/-- Counterexample to C9: at the largest 64-bit input `i64::MAX = 2^63 - 1` the
fixture cannot complete with `req + 1` — the increment overflows and wraps to
`i64::MIN = -2^63`. -/
theorem fixture_overflow_cex :
    (RQServiceBuilder.new.call_i64 (2 ^ 63 - 1)).2 = -(2 ^ 63) ∧
    (RQServiceBuilder.new.call_i64 (2 ^ 63 - 1)).2 ≠ (2 ^ 63 - 1) + 1 := by
  unfold RQServiceBuilder.call_i64 wrap64
  norm_num

/-- C9 (amended): the fixture delays two seconds and resolves to `Ok(req + 1)`,
with no other transformation of its input, for every 64-bit input whose
increment stays in the 64-bit range; at `i64::MAX` the increment wraps
(two's-complement release semantics) instead. -/
theorem fixture_delay_increment (b : RQServiceBuilder) (req : Int)
    (h1 : -(2 ^ 63) ≤ req) (h2 : req + 1 < 2 ^ 63) :
    b.call_i64 req = (2, req + 1) := by
  unfold RQServiceBuilder.call_i64 wrap64
  have e63 : (2 : Int) ^ 63 = 9223372036854775808 := by norm_num
  have e64 : (2 : Int) ^ 64 = 18446744073709551616 := by norm_num
  rw [e63] at h1 h2
  rw [e63, e64]
  have hmod : (req + 1 + 9223372036854775808) % 18446744073709551616
      = req + 1 + 9223372036854775808 :=
    Int.emod_eq_of_lt (by omega) (by omega)
  rw [hmod]
  simp only [Prod.mk.injEq]
  exact ⟨trivial, by omega⟩

/-- Witness for the fixture theorem at input 41. -/
theorem fixture_delay_increment_witness :
    (-(2 ^ 63) ≤ (41 : Int)) ∧ ((41 : Int) + 1 < 2 ^ 63) ∧
    RQServiceBuilder.new.call_i64 41 = (2, 41 + 1) :=
  ⟨by norm_num, by norm_num,
   fixture_delay_increment RQServiceBuilder.new 41 (by norm_num) (by norm_num)⟩

/-- C10: the dispatch interface is infallible and always ready — `poll_ready`
is unconditionally `Ready(Ok(()))`, every value the dispatch future resolves to
is `Ok(())`, and the declared error type `Infallible` is uninhabited, so a
caller can never observe a dispatch-level error. -/
theorem service_interface_infallible :
    (∀ b : RQServiceBuilder, b.poll_ready = Poll.ready (Except.ok ())) ∧
    (∀ (b : RQServiceBuilder) (e : QEvent) (r : Except Infallible Unit),
        (b.call e).2.outcome = some r → r = Except.ok ()) ∧
    (Infallible → False) := by
  refine ⟨fun b => rfl, ?_, fun x => x.elim⟩
  intro b e r h
  unfold DispatchResult.outcome at h
  split at h
  · injection h with h1
    exact h1.symm
  · cases h

/-- Witness for the infallibility theorem on a concrete dispatch outcome. -/
theorem service_interface_infallible_witness :
    (RQServiceBuilder.new.call QEvent.Unknown).2.outcome = some (Except.ok ()) ∧
    (Except.ok () : Except Infallible Unit) = Except.ok () :=
  ⟨rfl, service_interface_infallible.2.1 RQServiceBuilder.new QEvent.Unknown
      (Except.ok ()) rfl⟩
